import Mathlib

/-!
A Lean model of the match lifecycle controller implemented in
`src/client/src/pages/match-page.tsx` of the CompareAI repository.

Scores are modelled as rationals (`ℚ`); an absent score is `none`.
We model a possibly-NaN JavaScript number as `Option ℚ` with `none`
standing for `NaN`, and model `>` so that any comparison against `NaN`
is `false`, as in JavaScript.

One caveat: the runtime form of an absent score (`undefined`, whose
`Number(...)` coercion is `NaN`, versus JSON `null`, whose coercion is
`0`) is fixed by `@shared/schema` and the server, neither of which is
part of this excerpt; the model takes `undefined`.  No theorem below
depends on that choice: every theorem about the outcome classification
assumes both scores present.
-/

namespace CompareAI

/-- The three match states read by the client (`pending`, `ready`, `completed`). -/
inductive Status where
  | pending
  | ready
  | completed
deriving DecidableEq

/-- The Match snapshot as read by the client (fields used by the page). -/
structure Match where
  id : Nat
  creatorId : Nat
  invitedId : Nat
  status : Status
  creatorScore : Option ℚ
  invitedScore : Option ℚ

/-- `user?.id === match.creatorId` (line 88): an absent user is never the creator. -/
def isCreator (user : Option Nat) (m : Match) : Bool :=
  match user with
  | some uid => uid == m.creatorId
  | none => false

/-- JavaScript strict equality `===` on the two raw (possibly absent) scores
(line 189/195): two absent values are equal, an absent and a present value are
not, and two present values compare numerically. -/
def jsStrictEqOpt : Option ℚ → Option ℚ → Bool
  | some a, some b => a == b
  | none, none => true
  | _, _ => false

/-- `Number(x)` coercion of a possibly absent score: a numeric value is
unchanged, and an absent value is taken to be `undefined`, which becomes
`NaN` (modelled `none`).  An absent value arriving as JSON `null` would
instead coerce to `0`; which form occurs is decided outside this excerpt,
and no theorem below depends on the choice. -/
def jsNumber (s : Option ℚ) : Option ℚ := s

/-- JavaScript `>` on possibly-NaN numbers: any comparison involving `NaN`
is `false`. -/
def jsGt : Option ℚ → Option ℚ → Bool
  | some a, some b => decide (a > b)
  | _, _ => false

/-- The win test of lines 190/197:
`isCreator ? Number(creatorScore!) > Number(invitedScore!) : Number(invitedScore!) > Number(creatorScore!)`. -/
def winCondition (m : Match) (isC : Bool) : Bool :=
  if isC then jsGt (jsNumber m.creatorScore) (jsNumber m.invitedScore)
  else jsGt (jsNumber m.invitedScore) (jsNumber m.creatorScore)

/-- Outcome of a completed match as classified by the view. -/
inductive Outcome where
  | tie
  | win
  | loss
deriving DecidableEq

/-- The outcome classification of lines 189-201: tie when the raw scores are
strictly equal, else win when the viewer's win test holds, else loss. -/
def outcome (m : Match) (isC : Bool) : Outcome :=
  if jsStrictEqOpt m.creatorScore m.invitedScore then Outcome.tie
  else if winCondition m isC then Outcome.win
  else Outcome.loss

/-- The result message of lines 195-199. -/
def resultMessage (m : Match) (isC : Bool) : String :=
  if jsStrictEqOpt m.creatorScore m.invitedScore then "It\x27s a tie!"
  else if winCondition m isC then "You won!"
  else "Your friend won!"

/-- The five mutually exclusive views of the page body (lines 103-230). -/
inductive View where
  | pendingInvited
  | pendingCreator
  | readyCreator
  | readyInvited
  | completedResult
deriving DecidableEq

/-- The render guard of each view, read off the JSX conditions:
`isPending && !isCreator` (103), `isPending && isCreator` (147),
`isReady && isCreator` (157), `isReady && !isCreator` (177),
`isCompleted` (187). -/
def viewGuard (v : View) (s : Status) (isC : Bool) : Bool :=
  match v with
  | View.pendingInvited => (s == Status.pending) && !isC
  | View.pendingCreator => (s == Status.pending) && isC
  | View.readyCreator => (s == Status.ready) && isC
  | View.readyInvited => (s == Status.ready) && !isC
  | View.completedResult => s == Status.completed

/-- All five views, in page order. -/
def allViews : List View :=
  [View.pendingInvited, View.pendingCreator, View.readyCreator,
   View.readyInvited, View.completedResult]

/-- The Compare button is rendered only inside the `isReady && isCreator`
branch (line 157). -/
def compareRendered (s : Status) (isC : Bool) : Bool :=
  (s == Status.ready) && isC

/-- The rendered Compare button's `disabled` attribute is
`compareMutation.isPending` (line 169), i.e. true exactly while a compare
request is in flight. -/
def compareDisabledFlag (inFlight : Bool) : Bool := inFlight

/-- The Compare action is invocable iff its button is rendered and not
disabled. -/
def compareEnabled (s : Status) (isC : Bool) (inFlight : Bool) : Bool :=
  compareRendered s isC && !compareDisabledFlag inFlight

/-- A selected file; only its presence and name matter to the page. -/
structure File where
  name : String

/-- A transport response as seen by the page: `ok` status plus textual body. -/
structure FetchResponse where
  ok : Bool
  body : String

/-- The multipart form fields built by `respondMutation.mutationFn`
(lines 29-31): `photo` appended only when a file is selected, then
`accept` as the stringified boolean. -/
def respondFormData (accept : Bool) (selectedFile : Option File) : List (String × String) :=
  (match selectedFile with
   | some f => [("photo", f.name)]
   | none => []) ++ [("accept", toString accept)]

/-- The result of one run of `respondMutation.mutationFn`: whether the
network was contacted, and the settled promise. -/
structure RespondRun where
  networkCalled : Bool
  result : Except String Unit

/-- `respondMutation.mutationFn` (lines 26-43).  `net` is the behaviour of
the `fetch` call: `Except.error e` when the request itself fails (network
failure), `Except.ok resp` when a response arrives.  The local guard
`if (accept && !selectedFile) throw new Error("No file selected")` runs
before any network activity; a non-success response makes the function
throw the raw response body (lines 39-42). -/
def respondMutationFn (accept : Bool) (selectedFile : Option File)
    (net : Except String FetchResponse) : RespondRun :=
  if accept && selectedFile.isNone then
    { networkCalled := false, result := Except.error "No file selected" }
  else
    match net with
    | Except.error e => { networkCalled := true, result := Except.error e }
    | Except.ok resp =>
      if resp.ok then { networkCalled := true, result := Except.ok () }
      else { networkCalled := true, result := Except.error resp.body }

/-- The scores returned by `POST /api/matches/{id}/compare` on success. -/
structure CompareData where
  creatorScore : ℚ
  invitedScore : ℚ

/-- Modelled from the spec: `apiRequest` (imported from `@/lib/queryClient`,
whose source is not part of this excerpt) issues the request and, per the
spec's transport-failure rule, throws on a non-success status with the raw
response body as the error detail; on success it returns the response. -/
def apiRequest (resp : FetchResponse) : Except String FetchResponse :=
  if resp.ok then Except.ok resp else Except.error resp.body

/-- `compareMutation.mutationFn` (lines 54-57): `apiRequest` on the
transport outcome, then `res.json()` (modelled by the already-parsed
`parsed` payload of a successful response). -/
def compareMutationFn (net : Except String FetchResponse) (parsed : CompareData) :
    Except String CompareData :=
  match net with
  | Except.error e => Except.error e
  | Except.ok resp =>
    match apiRequest resp with
    | Except.error e => Except.error e
    | Except.ok _ => Except.ok parsed

/-- An observable UI side effect of a mutation callback. -/
inductive Effect where
  | invalidateQuery (key : String)
  | toast (title : String) (description : String) (destructive : Bool)
deriving DecidableEq

/-- The query key of the cached Match snapshot (line 22). -/
def matchQueryKey (id : String) : String := "/api/matches/" ++ id

/-- `Number(q).toFixed(1)` for a non-negative score: round to the nearest
tenth (ties to the larger value), i.e. the floor of `q * 10 + 1/2`, computed
as the floor division `⌊(20 num + den) / (2 den)⌋` on the score's reduced
representation, then print one decimal digit. -/
def toFixed1 (q : ℚ) : String :=
  let n := Int.fdiv (q.num * 20 + Int.ofNat q.den) (2 * Int.ofNat q.den)
  toString (n / 10) ++ "." ++ toString (n % 10)

/-- `respondMutation.onSuccess` (lines 44-50): invalidate the Match
snapshot, then toast a confirmation. -/
def respondOnSuccess (id : String) : List Effect :=
  [Effect.invalidateQuery (matchQueryKey id),
   Effect.toast "Response sent" "Your response has been recorded" false]

/-- `respondMutation` declares no `onError` callback (lines 25-51), so a
failed respond run triggers no effect: the rejection is recorded in the
mutation state by the mutation layer and never rethrown to the view. -/
def respondOnError : String → List Effect := fun _ => []

/-- The effects of one respond action: `onSuccess` effects when the
mutation function resolves, `onError` effects (none are configured) when
it rejects. -/
def runRespond (id : String) (accept : Bool) (selectedFile : Option File)
    (net : Except String FetchResponse) : List Effect :=
  match (respondMutationFn accept selectedFile net).result with
  | Except.ok _ => respondOnSuccess id
  | Except.error e => respondOnError e

/-- `compareMutation.onSuccess` (lines 58-64): invalidate the Match
snapshot, then toast both scores rounded to one decimal. -/
def compareOnSuccess (id : String) (data : CompareData) : List Effect :=
  [Effect.invalidateQuery (matchQueryKey id),
   Effect.toast "Comparison complete"
     ("Your score: " ++ toFixed1 data.creatorScore ++ ", Their score: " ++ toFixed1 data.invitedScore)
     false]

/-- `compareMutation.onError` (lines 65-71): a destructive toast carrying
the error message. -/
def compareOnError (message : String) : List Effect :=
  [Effect.toast "Comparison failed" message true]

/-- The effects of one compare action. -/
def runCompare (id : String) (net : Except String FetchResponse) (parsed : CompareData) :
    List Effect :=
  match compareMutationFn net parsed with
  | Except.ok d => compareOnSuccess id d
  | Except.error e => compareOnError e

/-- Whether an effect invalidates a cached query. -/
def isInvalidate : Effect → Bool
  | Effect.invalidateQuery _ => true
  | _ => false

/-- Whether an effect is a user-visible notification. -/
def isToast : Effect → Bool
  | Effect.toast _ _ _ => true
  | _ => false

/-- The Accept button's `disabled` attribute is
`!selectedFile || respondMutation.isPending` (line 132). -/
def acceptDisabled (selectedFile : Option File) (inFlight : Bool) : Bool :=
  selectedFile.isNone || inFlight

/-- The Decline button's `disabled` attribute is
`respondMutation.isPending` (line 139). -/
def declineDisabled (inFlight : Bool) : Bool := inFlight

/-- JavaScript truthiness of a possibly absent score: absent is falsy, and
a numeric value is falsy exactly when it equals `0`. -/
def jsTruthy : Option ℚ → Bool
  | none => false
  | some q => !(q == 0)

/-- The score cell of the result grid (lines 206-226):
`score ? Number(score).toFixed(1) : '-'`. -/
def displayScore (s : Option ℚ) : String :=
  if jsTruthy s then
    match s with
    | some q => toFixed1 q
    | none => "-"
  else "-"

/-- "Your Score" cell (lines 207-213). -/
def myScoreDisplay (m : Match) (isC : Bool) : String :=
  if isC then displayScore m.creatorScore else displayScore m.invitedScore

/-- "Their Score" cell (lines 219-225). -/
def theirScoreDisplay (m : Match) (isC : Bool) : String :=
  if isC then displayScore m.invitedScore else displayScore m.creatorScore

/-- The viewer's own score: `isCreator ? creatorScore : invitedScore`. -/
def myScore (cs inv : ℚ) (isC : Bool) : ℚ := if isC then cs else inv

/-- The other participant's score: `isCreator ? invitedScore : creatorScore`. -/
def theirScore (cs inv : ℚ) (isC : Bool) : ℚ := if isC then inv else cs

end CompareAI

namespace CompareAI

/-- C3: for every status in {pending, ready, completed} and every role,
exactly one of the five views renders: the list of views whose render guard
holds has length one, determined by `(status, isCreator)` alone. -/
theorem view_selection_exactly_one :
    ∀ (s : Status) (isC : Bool),
      (allViews.filter (fun v => viewGuard v s isC)).length = 1 := by
  intro s isC
  cases s <;> cases isC <;> rfl

/-- C4: the Compare action is enabled iff the match is `ready`, the viewer is
the creator, and no compare request is in flight (so immediately after
invocation, while the request is unresolved, it is disabled). -/
theorem compare_enabled_iff :
    ∀ (s : Status) (isC : Bool) (inFlight : Bool),
      compareEnabled s isC inFlight = true ↔
        (s = Status.ready ∧ isC = true ∧ inFlight = false) := by
  intro s isC inFlight
  cases s <;> cases isC <;> cases inFlight <;> simp [compareEnabled, compareRendered, compareDisabledFlag]

/-- C1: for a completed match with both scores present, the outcome
classification is total and mutually exclusive (each of TIE/WIN/LOSS holds
exactly under the stated condition): TIE iff the raw scores are exactly
equal, WIN iff they differ and the viewer's own score is strictly greater,
LOSS otherwise. -/
theorem outcome_classification_total_exclusive (m : Match) (cs inv : ℚ) (isC : Bool)
    (hc : m.creatorScore = some cs) (hi : m.invitedScore = some inv) :
    (outcome m isC = Outcome.tie ↔ cs = inv) ∧
    (outcome m isC = Outcome.win ↔ cs ≠ inv ∧ myScore cs inv isC > theirScore cs inv isC) ∧
    (outcome m isC = Outcome.loss ↔ cs ≠ inv ∧ ¬ myScore cs inv isC > theirScore cs inv isC) := by
  by_cases h : cs = inv
  · subst h
    cases isC <;>
      simp [outcome, winCondition, jsNumber, jsStrictEqOpt, jsGt, hc, hi, myScore, theirScore,
        lt_irrefl]
  · cases isC
    · by_cases hgt : inv > cs <;>
        simp [outcome, winCondition, jsNumber, jsStrictEqOpt, jsGt, hc, hi, myScore, theirScore,
          h, hgt]
    · by_cases hgt : cs > inv <;>
        simp [outcome, winCondition, jsNumber, jsStrictEqOpt, jsGt, hc, hi, myScore, theirScore,
          h, hgt]

/-- Witness for C1 at creatorScore = 8, invitedScore = 13/2, viewer = creator. -/
theorem outcome_classification_total_exclusive_witness :
    (outcome ⟨1, 0, 1, Status.completed, some 8, some (13/2)⟩ true = Outcome.tie ↔
      (8 : ℚ) = 13/2) ∧
    (outcome ⟨1, 0, 1, Status.completed, some 8, some (13/2)⟩ true = Outcome.win ↔
      (8 : ℚ) ≠ 13/2 ∧ myScore 8 (13/2) true > theirScore 8 (13/2) true) ∧
    (outcome ⟨1, 0, 1, Status.completed, some 8, some (13/2)⟩ true = Outcome.loss ↔
      (8 : ℚ) ≠ 13/2 ∧ ¬ myScore 8 (13/2) true > theirScore 8 (13/2) true) :=
  outcome_classification_total_exclusive ⟨1, 0, 1, Status.completed, some 8, some (13/2)⟩
    8 (13/2) true rfl rfl

/-- C5: Respond with accept and no selected file fails locally with
"No file selected" — whatever the network would have answered, it is never
contacted — and in the pending/invited view the Accept button is disabled
whenever no file is selected, while the Decline button is enabled when no
respond request is in flight. -/
theorem respond_accept_without_photo_local_error :
    ∀ (net : Except String FetchResponse) (inFlight : Bool),
      (respondMutationFn true none net).networkCalled = false ∧
      (respondMutationFn true none net).result = Except.error "No file selected" ∧
      acceptDisabled none inFlight = true ∧
      declineDisabled false = false := by
  intro net inFlight
  exact ⟨rfl, rfl, rfl, rfl⟩

/-- C6: Respond with decline always contacts the network and its result
does not depend on the selected file at all: no photo is required. -/
theorem respond_decline_always_network :
    ∀ (selectedFile : Option File) (net : Except String FetchResponse),
      (respondMutationFn false selectedFile net).networkCalled = true ∧
      respondMutationFn false selectedFile net = respondMutationFn false none net := by
  intro f net
  cases net with
  | error e => exact ⟨rfl, rfl⟩
  | ok resp => cases hok : resp.ok <;> simp [respondMutationFn, hok]

/-- C7: for both actions, the cached Match snapshot is invalidated iff the
mutation function resolved successfully; on every failure (local
validation, transport rejection or network failure) the effect list
contains no invalidation. -/
theorem invalidate_only_on_success :
    ∀ (id : String) (accept : Bool) (selectedFile : Option File)
      (net netC : Except String FetchResponse) (parsed : CompareData),
      ((runRespond id accept selectedFile net).any isInvalidate = true ↔
        (respondMutationFn accept selectedFile net).result = Except.ok ()) ∧
      ((runCompare id netC parsed).any isInvalidate = true ↔
        compareMutationFn netC parsed = Except.ok parsed) := by
  intro id accept f net netC parsed
  constructor
  · by_cases hl : (accept && f.isNone) = true
    · simp [runRespond, respondMutationFn, hl, respondOnError, isInvalidate]
    · cases net with
      | error e =>
        simp [runRespond, respondMutationFn, hl, respondOnError, isInvalidate]
      | ok resp =>
        cases hok : resp.ok <;>
          simp [runRespond, respondMutationFn, hl, hok, respondOnSuccess, respondOnError,
            isInvalidate]
  · cases netC with
    | error e =>
      simp [runCompare, compareMutationFn, compareOnError, isInvalidate]
    | ok resp =>
      cases hok : resp.ok <;>
        simp [runCompare, compareMutationFn, apiRequest, hok, compareOnSuccess, compareOnError,
          isInvalidate]

/-- Counterexample to C2: a declined response met by a transport rejection
is a failed backend-issued Respond action, yet its effect list is empty —
no toast, because `respondMutation` configures no `onError` — so not every
failed action is surfaced as a user-visible notification. -/
theorem respond_failure_not_surfaced_cex :
    (respondMutationFn false none (Except.ok ⟨false, "server rejected"⟩)).result =
      Except.error "server rejected" ∧
    runRespond "7" false none (Except.ok ⟨false, "server rejected"⟩) = [] :=
  ⟨rfl, rfl⟩

/-- C2 amended: Compare failures are surfaced as a destructive toast
carrying the error message — for a non-success transport response, the raw
body (via `apiRequest`) — while Respond failures are caught by the
mutation layer without propagating (the run yields a well-defined, empty
effect list): a non-success Respond response makes the raw body the
recorded error, but no notification is shown. -/
theorem failure_surfacing_amended (id e : String) (parsed : CompareData)
    (resp : FetchResponse) (accept : Bool) (selectedFile : Option File)
    (net : Except String FetchResponse)
    (hok : resp.ok = false)
    (hfail : (respondMutationFn accept selectedFile net).result ≠ Except.ok ()) :
    runCompare id (Except.error e) parsed = [Effect.toast "Comparison failed" e true] ∧
    runCompare id (Except.ok resp) parsed =
      [Effect.toast "Comparison failed" resp.body true] ∧
    runRespond id accept selectedFile net = [] := by
  refine ⟨rfl, ?_, ?_⟩
  · simp [runCompare, compareMutationFn, apiRequest, hok, compareOnError]
  · unfold runRespond
    cases h : (respondMutationFn accept selectedFile net).result with
    | ok u => cases u; exact absurd h hfail
    | error e2 => rfl

/-- Witness for the amended C2 at a concrete failing compare and a
concrete transport-rejected respond. -/
theorem failure_surfacing_amended_witness :
    runCompare "7" (Except.error "network down") ⟨8, 13/2⟩ =
      [Effect.toast "Comparison failed" "network down" true] ∧
    runCompare "7" (Except.ok ⟨false, "bad request"⟩) ⟨8, 13/2⟩ =
      [Effect.toast "Comparison failed" "bad request" true] ∧
    runRespond "7" false none (Except.ok ⟨false, "bad request"⟩) = [] :=
  failure_surfacing_amended "7" "network down" ⟨8, 13/2⟩ ⟨false, "bad request"⟩ false none
    (Except.ok ⟨false, "bad request"⟩) rfl (fun h => Except.noConfusion h)

/-- Counterexample to C8: in a completed match whose creator score is
present and equal to 0, the creator sees "-" and not the one-decimal
rendering "0.0": not every present score is displayed rounded. -/
theorem present_zero_score_not_rounded_cex :
    myScoreDisplay ⟨1, 0, 1, Status.completed, some 0, some 5⟩ true = "-" ∧
    toFixed1 0 = "0.0" ∧
    myScoreDisplay ⟨1, 0, 1, Status.completed, some 0, some 5⟩ true ≠ toFixed1 0 := by
  refine ⟨by decide, by decide, by decide⟩

/-- C8 amended: a present nonzero score is displayed rounded to one
decimal place; an absent score — and, because presence is tested by
truthiness, a present score equal to 0 — is displayed as the placeholder
"-", and the (total) display function never fails. -/
theorem score_display_amended (q : ℚ) (hq : q ≠ 0) (m : Match)
    (hc : m.creatorScore = some q) :
    displayScore (some q) = toFixed1 q ∧
    displayScore none = "-" ∧
    displayScore (some 0) = "-" ∧
    myScoreDisplay m true = toFixed1 q ∧
    theirScoreDisplay m false = toFixed1 q := by
  have hd : displayScore (some q) = toFixed1 q := by
    simp [displayScore, jsTruthy, hq]
  refine ⟨hd, rfl, by decide, ?_, ?_⟩ <;>
    simp [myScoreDisplay, theirScoreDisplay, hc, hd]

/-- Witness for the amended C8 at creatorScore = 7.82. -/
theorem score_display_amended_witness :
    ((782 : ℚ)/100 ≠ 0) ∧
    (displayScore (some ((782 : ℚ)/100)) = toFixed1 ((782 : ℚ)/100) ∧
     displayScore none = "-" ∧
     displayScore (some 0) = "-" ∧
     myScoreDisplay ⟨1, 0, 1, Status.completed, some ((782 : ℚ)/100), some (13/2)⟩ true =
       toFixed1 ((782 : ℚ)/100) ∧
     theirScoreDisplay ⟨1, 0, 1, Status.completed, some ((782 : ℚ)/100), some (13/2)⟩ false =
       toFixed1 ((782 : ℚ)/100)) :=
  ⟨by norm_num,
   score_display_amended ((782 : ℚ)/100) (by norm_num)
     ⟨1, 0, 1, Status.completed, some ((782 : ℚ)/100), some (13/2)⟩ rfl⟩

/-- C10: a present score equal to 0 renders as the placeholder "-" exactly
as an absent score does — not as "0.0" — since the cell tests the score by
truthiness. -/
theorem zero_score_renders_as_dash :
    displayScore (some 0) = "-" ∧
    displayScore (some 0) = displayScore none ∧
    toFixed1 0 = "0.0" ∧
    displayScore (some 0) ≠ "0.0" ∧
    theirScoreDisplay ⟨1, 0, 1, Status.completed, some 5, some 0⟩ true = "-" := by
  refine ⟨by decide, by decide, by decide, by decide, by decide⟩

end CompareAI
